import Mathlib

/-
  Verification of the auto-unseal manager (`vault/seal_autoseal.go`).

  Shallow embedding: the Go methods on `autoSeal` become pure functions on an
  explicit state.  Machine details that the claims do not depend on (contexts,
  loggers, metrics) are omitted.  Fallible Go code returns `Res`, with a
  distinguished `nilPanic` outcome modelling a Go nil-pointer dereference
  (a runtime panic, not an error return).
-/

namespace Vault

/-- Byte strings (`[]byte` contents).  A Go `[]byte` variable is modelled as
`Option Bytes`: `none` is a nil slice, `some []` an empty non-nil slice. -/
abbrev Bytes := List Nat

/-- Result of a Go call: normal value, error return, or a runtime panic from
dereferencing a nil pointer. -/
inductive Res (α : Type) where
  | ok : α → Res α
  | err : String → Res α
  | nilPanic : Res α
deriving DecidableEq, Repr

/-- `SealConfig`: persisted seal configuration record.  `Type` plus the
threshold/shares metadata that is opaque to this core. -/
structure SealConfig where
  type : String
  secretShares : Nat
  secretThreshold : Nat
deriving DecidableEq, Repr

/-- `SealConfigTypeMultiseal`: config type used when more than one backend is
configured. -/
def SealConfigTypeMultiseal : String := "multiseal"

/-- `SealConfigTypeRecovery`: the fixed recovery config type constant. -/
def SealConfigTypeRecovery : String := "recovery"

/-- Payload protected by a seal wrap: either a single byte string (recovery
key) or a list of key shares (stored barrier keys). -/
inductive Payload where
  | single : Bytes → Payload
  | shares : List Bytes → Payload
deriving DecidableEq, Repr

/-- `SealWrappedValue`: ciphertext tagged with the key version that produced
it.  The seal backend's encryption is opaque, so the ciphertext is modelled by
the plaintext payload itself; only the tag matters to this core. -/
structure SealWrappedValue where
  keyId : Nat
  payload : Payload
deriving DecidableEq, Repr

/-- A value held in a storage entry: a seal-wrapped blob or a marshalled
`SealConfig`. -/
inductive StoredValue where
  | wrapped : SealWrappedValue → StoredValue
  | config : SealConfig → StoredValue
deriving DecidableEq, Repr

/-- Physical (or barrier) storage: an association of paths to entries. -/
abbrev Storage := List (String × StoredValue)

/-- Read the entry at a path. -/
def storageGet (s : Storage) (p : String) : Option StoredValue :=
  match s.find? (fun e => e.1 == p) with
  | some e => some e.2
  | none => none

/-- Overwrite the entry at a path. -/
def storagePut (s : Storage) (p : String) (v : StoredValue) : Storage :=
  (p, v) :: s.filter (fun e => !(e.1 == p))

/-- Delete the entry at a path (a no-op when absent). -/
def storageDel (s : Storage) (p : String) : Storage :=
  s.filter (fun e => !(e.1 == p))

/-- Modelled from the spec: the fixed storage paths ("Persisted state layout
(paths are fixed, opaque strings)"); the constants live outside the provided
source file.  Only their distinctness matters. -/
def StoredBarrierKeysPath : String := "core/hsm/barrier-unseal-keys"

/-- Modelled from the spec: fixed path of the wrapped recovery key. -/
def recoveryKeyPath : String := "core/recovery-key"

/-- Modelled from the spec: legacy, barrier-protected recovery seal config
path. -/
def recoverySealConfigPath : String := "core/recovery-seal-config"

/-- Modelled from the spec: plaintext-but-wrapped successor path of the
recovery seal config. -/
def recoverySealConfigPlaintextPath : String := "core/recovery-config"

/-- Modelled from the spec: barrier seal config path. -/
def barrierSealConfigPath : String := "core/seal-config"

/-- Per-backend health snapshot (`SealInfo`): name plus the `Healthy` flag
mutated by the health monitor.  Timestamps and locks are omitted. -/
structure SealInfo where
  name : String
  healthy : Bool
deriving DecidableEq, Repr

/-- `seal.Access`: the current backend key version (for `IsUpToDate`), the
configured seal generation types (`GetSealGenerationInfo().Seals[i].Type`) and
the per-backend health infos (`GetAllSealInfoByPriority`). -/
structure Access where
  currentKeyId : Nat
  generationSealTypes : List String
  sealInfos : List SealInfo
deriving DecidableEq, Repr

/-- `IsUpToDate`: the wrapped value's tag is compared against the backend's
current key version. -/
def IsUpToDate (a : Access) (v : SealWrappedValue) : Bool :=
  v.keyId == a.currentKeyId

/-- The server `Core` collaborator: physical storage, barrier storage (legacy
migration source), the sealed flag, and a fault model saying which storage
operations fail (so that error paths of the manager are reachable states). -/
structure Core where
  physical : Storage
  barrier : Storage
  isSealed : Bool
  putFailPaths : List String
  getFailPaths : List String
  barrierGetFails : Bool
  barrierDeleteFails : Bool
deriving DecidableEq, Repr

/-- `Core.Sealed()`. -/
def Core.Sealed (c : Core) : Bool := c.isSealed

/-- Put into a core's physical storage. -/
def corePut (c : Core) (p : String) (v : StoredValue) : Core :=
  { c with physical := storagePut c.physical p v }

/-- `autoSeal`: the manager state.  `core = none` models the state before
`SetCore` has bound a server instance (a nil `*Core`).  `allSealsHealthy`
starts at the Go zero value `false`. -/
structure AutoSeal where
  access : Access
  barrierSealConfigType : String
  barrierConfig : Option SealConfig
  recoveryConfig : Option SealConfig
  core : Option Core
  allSealsHealthy : Bool
deriving DecidableEq, Repr

/-- `NewAutoSeal`: computes the barrier seal config type once, from the seal
generation info: "multiseal" when more than one backend is configured,
otherwise the single backend's declared type (the `Access` constructors
guarantee at least one entry; `headD` supplies a dummy for the vacuous empty
case). -/
def NewAutoSeal (lowLevel : Access) : AutoSeal :=
  { access := lowLevel
    barrierSealConfigType :=
      if 1 < lowLevel.generationSealTypes.length then SealConfigTypeMultiseal
      else lowLevel.generationSealTypes.headD ""
    barrierConfig := none
    recoveryConfig := none
    core := none
    allSealsHealthy := false }

/-- `Healthy()`: returns the aggregate flag (the read-lock is irrelevant in
the sequential model). -/
def Healthy (d : AutoSeal) : Bool := d.allSealsHealthy

/-- `BarrierSealConfigType()`. -/
def BarrierSealConfigType (d : AutoSeal) : String := d.barrierSealConfigType

/-- `RecoverySealConfigType()`: the fixed recovery constant. -/
def RecoverySealConfigType : String := SealConfigTypeRecovery

/-- Modelled from the spec: `SealConfigType.IsSameAs`, a "case/format-
insensitive comparison against the recovery type" (the method lives outside
the provided source file). -/
def IsSameAs (t other : String) : Bool :=
  t.toLower == other.toLower

/-- `SetCore`: binds the server instance. -/
def SetCore (d : AutoSeal) (c : Core) : AutoSeal := { d with core := some c }

/-- `checkCore`: fails when no core has been bound. -/
def checkCore (d : AutoSeal) : Option String :=
  match d.core with
  | none => some "seal does not have a core set"
  | some _ => none

/-- Modelled from the spec: `SealWrapRecoveryKey` — wrap (encrypt and tag)
the recovery key under the backend's current key version (the helper lives
outside the provided source file). -/
def SealWrapRecoveryKey (a : Access) (key : Bytes) : SealWrappedValue :=
  { keyId := a.currentKeyId, payload := .single key }

/-- Modelled from the spec: `UnsealWrapRecoveryKey` — unwrap a previously
wrapped recovery key ("can always be unwrapped by the backend that produced
it"). -/
def UnsealWrapRecoveryKey (v : SealWrappedValue) : Res Bytes :=
  match v.payload with
  | .single b => .ok b
  | .shares _ => .err "failed to decrypt encrypted stored keys"

/-- Modelled from the spec: `UnmarshalSealWrappedValue` — parse a stored blob
back into a `SealWrappedValue` (the codec lives outside the provided source
file). -/
def UnmarshalSealWrappedValue (v : StoredValue) : Res SealWrappedValue :=
  match v with
  | .wrapped w => .ok w
  | .config _ => .err "failed to unmarshal value"

/-- Modelled from the spec: `writeStoredKeys` — wrap the key shares and
persist them at the fixed stored-keys path; fails on persist failure (the
helper lives outside the provided source file). -/
def writeStoredKeys (c : Core) (a : Access) (keys : List Bytes) :
    Res Unit × Core :=
  if c.putFailPaths.contains StoredBarrierKeysPath then
    (.err "failed to write keys to backend", c)
  else
    (.ok (), corePut c StoredBarrierKeysPath
      (.wrapped { keyId := a.currentKeyId, payload := .shares keys }))

/-- Modelled from the spec: `readStoredKeys` — read and unwrap the stored key
shares; fails if missing or if the unwrap fails. -/
def readStoredKeys (c : Core) : Res (List Bytes) :=
  if c.getFailPaths.contains StoredBarrierKeysPath then
    .err "failed to fetch stored keys"
  else
    match storageGet c.physical StoredBarrierKeysPath with
    | none => .err "no stored keys found"
    | some v =>
      match UnmarshalSealWrappedValue v with
      | .err e => .err e
      | .nilPanic => .nilPanic
      | .ok w =>
        match w.payload with
        | .shares ks => .ok ks
        | .single _ => .err "failed to decrypt encrypted stored keys"

/-- `SetStoredKeys`: note there is NO `checkCore` guard — the method
dereferences `d.core.physical` directly, so an unbound core is a nil-pointer
panic. -/
def SetStoredKeys (d : AutoSeal) (keys : List Bytes) : Res Unit × AutoSeal :=
  match d.core with
  | none => (.nilPanic, d)
  | some c =>
    let r := writeStoredKeys c d.access keys
    (r.1, { d with core := some r.2 })

/-- `GetStoredKeys`: no `checkCore` guard either. -/
def GetStoredKeys (d : AutoSeal) : Res (List Bytes) :=
  match d.core with
  | none => .nilPanic
  | some c => readStoredKeys c

/-- `SetRecoveryKey`: `checkCore`, then reject a nil key (a Go `key == nil`
test — an empty non-nil slice passes it), then wrap and persist at the fixed
recovery key path. -/
def SetRecoveryKey (d : AutoSeal) (key : Option Bytes) : Res Unit × AutoSeal :=
  match d.core with
  | none => (.err "seal does not have a core set", d)
  | some c =>
    match key with
    | none => (.err "recovery key to store is nil", d)
    | some k =>
      if c.putFailPaths.contains recoveryKeyPath then
        (.err "failed to write recovery key", d)
      else
        (.ok (), { d with
          core := some (corePut c recoveryKeyPath
            (.wrapped (SealWrapRecoveryKey d.access k))) })

/-- `getRecoveryKeyInternal`: read the wrapped recovery key from physical
storage and unwrap it.  No `checkCore` guard: `d.core.physical` panics when
the core is unbound. -/
def getRecoveryKeyInternal (d : AutoSeal) : Res Bytes :=
  match d.core with
  | none => .nilPanic
  | some c =>
    if c.getFailPaths.contains recoveryKeyPath then
      .err "failed to read recovery key"
    else
      match storageGet c.physical recoveryKeyPath with
      | none => .err "no recovery key found"
      | some v =>
        match UnmarshalSealWrappedValue v with
        | .err _ => .err "failed to decrypt encrypted stored keys"
        | .nilPanic => .nilPanic
        | .ok w =>
          match UnsealWrapRecoveryKey w with
          | .ok pt => .ok pt
          | .err _ => .err "failed to decrypt encrypted stored keys"
          | .nilPanic => .nilPanic

/-- `RecoveryKey()`. -/
def RecoveryKey (d : AutoSeal) : Res Bytes := getRecoveryKeyInternal d

/-- `subtle.ConstantTimeCompare`: 1 exactly when the two byte strings have
equal length and contents, 0 otherwise. -/
def constantTimeCompare (x y : Bytes) : Nat :=
  if x = y then 1 else 0

/-- `VerifyRecoveryKey`: nil-candidate check first (before any storage
access), then fetch the stored plaintext and compare in constant time. -/
def VerifyRecoveryKey (d : AutoSeal) (key : Option Bytes) : Res Unit :=
  match key with
  | none => .err "recovery key to verify is nil"
  | some k =>
    match getRecoveryKeyInternal d with
    | .err e => .err e
    | .nilPanic => .nilPanic
    | .ok pt =>
      if constantTimeCompare k pt == 1 then .ok ()
      else .err "recovery key does not match submitted values"

/-- `upgradeRecoveryKey`: fetch the wrapped recovery key (no `checkCore`
guard), check whether its wrap is up to date, and if not unwrap and
re-persist via `SetRecoveryKey`. -/
def upgradeRecoveryKey (d : AutoSeal) : Res Unit × AutoSeal :=
  match d.core with
  | none => (.nilPanic, d)
  | some c =>
    if c.getFailPaths.contains recoveryKeyPath then
      (.err "failed to fetch recovery key", d)
    else
      match storageGet c.physical recoveryKeyPath with
      | none => (.err "no recovery key found", d)
      | some v =>
        match UnmarshalSealWrappedValue v with
        | .err _ => (.err "failed to unmarshal recovery key", d)
        | .nilPanic => (.nilPanic, d)
        | .ok w =>
          if IsUpToDate d.access w then (.ok (), d)
          else
            match UnsealWrapRecoveryKey w with
            | .err _ => (.err "failed to decrypt recovery key", d)
            | .nilPanic => (.nilPanic, d)
            | .ok pt => SetRecoveryKey d (some pt)

/-- `upgradeStoredKeys`: same shape for the stored barrier key shares,
re-persisting via `SetStoredKeys`. -/
def upgradeStoredKeys (d : AutoSeal) : Res Unit × AutoSeal :=
  match d.core with
  | none => (.nilPanic, d)
  | some c =>
    if c.getFailPaths.contains StoredBarrierKeysPath then
      (.err "failed to fetch stored keys", d)
    else
      match storageGet c.physical StoredBarrierKeysPath with
      | none => (.err "no stored keys found", d)
      | some v =>
        match UnmarshalSealWrappedValue v with
        | .err _ => (.err "failed to unmarshal stored keys", d)
        | .nilPanic => (.nilPanic, d)
        | .ok w =>
          if IsUpToDate d.access w then (.ok (), d)
          else
            match w.payload with
            | .single _ => (.err "failed to decrypt encrypted stored keys", d)
            | .shares keys => SetStoredKeys d keys

/-- `UpgradeKeys`: recovery key first, stored root keys second; a failure in
the first step returns immediately. -/
def UpgradeKeys (d : AutoSeal) : Res Unit × AutoSeal :=
  match upgradeRecoveryKey d with
  | (.ok _, d2) => upgradeStoredKeys d2
  | r => r

/-- Modelled from the spec: `Core.PhysicalBarrierSealConfig` — read the
barrier seal config entry from physical storage (the method lives outside the
provided source file). -/
def PhysicalBarrierSealConfig (c : Core) : Res (Option SealConfig) :=
  if c.getFailPaths.contains barrierSealConfigPath then
    .err "failed to read physical seal configuration"
  else
    match storageGet c.physical barrierSealConfigPath with
    | none => .ok none
    | some (.config cfg) => .ok (some cfg)
    | some (.wrapped _) => .err "failed to decode seal configuration"

/-- Modelled from the spec: `Core.SetPhysicalBarrierSealConfig` — persist the
barrier seal config. -/
def SetPhysicalBarrierSealConfig (c : Core) (cfg : SealConfig) :
    Res Unit × Core :=
  if c.putFailPaths.contains barrierSealConfigPath then
    (.err "failed to write seal configuration", c)
  else
    (.ok (), corePut c barrierSealConfigPath (.config cfg))

/-- Modelled from the spec: `Core.PhysicalRecoverySealConfig` — read the
recovery seal config from its plaintext-wrapped path. -/
def PhysicalRecoverySealConfig (c : Core) : Res (Option SealConfig) :=
  if c.getFailPaths.contains recoverySealConfigPlaintextPath then
    .err "failed to read recovery seal configuration"
  else
    match storageGet c.physical recoverySealConfigPlaintextPath with
    | none => .ok none
    | some (.config cfg) => .ok (some cfg)
    | some (.wrapped _) => .err "failed to decode recovery seal configuration"

/-- Modelled from the spec: `Core.PhysicalRecoverySealConfigOldPath` — read
the recovery seal config from the legacy barrier-protected path. -/
def PhysicalRecoverySealConfigOldPath (c : Core) : Res (Option SealConfig) :=
  if c.barrierGetFails then
    .err "failed to read old recovery seal configuration"
  else
    match storageGet c.barrier recoverySealConfigPath with
    | none => .ok none
    | some (.config cfg) => .ok (some cfg)
    | some (.wrapped _) => .err "failed to decode old recovery seal configuration"

/-- Modelled from the spec: `Core.SetPhysicalRecoverySealConfig` — persist
the recovery seal config at the plaintext-wrapped path. -/
def SetPhysicalRecoverySealConfig (c : Core) (cfg : SealConfig) :
    Res Unit × Core :=
  if c.putFailPaths.contains recoverySealConfigPlaintextPath then
    (.err "failed to write recovery seal configuration", c)
  else
    (.ok (), corePut c recoverySealConfigPlaintextPath (.config cfg))

/-- `BarrierConfig`: serve from the cache when present; else `checkCore`,
load from physical storage, reject a type mismatch (exact string comparison),
cache and return.  (`barrierTypeUpgradeCheck` is a no-op in this core.) -/
def BarrierConfig (d : AutoSeal) : Res (Option SealConfig) × AutoSeal :=
  match d.barrierConfig with
  | some cfg => (.ok (some cfg), d)
  | none =>
    match d.core with
    | none => (.err "seal does not have a core set", d)
    | some c =>
      match PhysicalBarrierSealConfig c with
      | .err e => (.err ("failed to read seal configuration: " ++ e), d)
      | .nilPanic => (.nilPanic, d)
      | .ok none => (.ok none, d)
      | .ok (some conf) =>
        if conf.type = BarrierSealConfigType d then
          (.ok (some conf), { d with barrierConfig := some conf })
        else
          (.err "barrier seal type does not match loaded type", d)

/-- `SetCachedBarrierConfig`. -/
def SetCachedBarrierConfig (d : AutoSeal) (config : Option SealConfig) :
    AutoSeal :=
  { d with barrierConfig := config }

/-- `SetBarrierConfig`: `checkCore`; a `none` config only clears the cache;
otherwise the caller's config object is mutated (its `Type` stamped with the
manager's computed type) before persisting, then the cache is updated on
success.  The third component of the result is the caller's config object as
it stands after the call (Go mutates it through the pointer). -/
def SetBarrierConfig (d : AutoSeal) (conf : Option SealConfig) :
    Res Unit × AutoSeal × Option SealConfig :=
  match d.core with
  | none => (.err "seal does not have a core set", d, conf)
  | some c =>
    match conf with
    | none => (.ok (), { d with barrierConfig := none }, none)
    | some cf =>
      let cf2 := { cf with type := BarrierSealConfigType d }
      match SetPhysicalBarrierSealConfig c cf2 with
      | (.ok _, c2) =>
        (.ok (), { d with core := some c2, barrierConfig := some cf2 },
          some cf2)
      | (.err e, c2) => (.err e, { d with core := some c2 }, some cf2)
      | (.nilPanic, c2) => (.nilPanic, { d with core := some c2 }, some cf2)

/-- `migrateRecoveryConfig`: read the legacy barrier-protected entry; if
absent, a no-op; otherwise rewrite it at the plaintext path and delete the
legacy entry, propagating failures (a partial migration — copied but not
deleted — is left as is). -/
def migrateRecoveryConfig (c : Core) : Res Unit × Core :=
  if c.barrierGetFails then
    (.err "failed to read old recovery seal configuration during migration", c)
  else
    match storageGet c.barrier recoverySealConfigPath with
    | none => (.ok (), c)
    | some v =>
      if c.putFailPaths.contains recoverySealConfigPlaintextPath then
        (.err "failed to write recovery seal configuration during migration", c)
      else
        let c2 := corePut c recoverySealConfigPlaintextPath v
        if c2.barrierDeleteFails then
          (.err "failed to delete old recovery seal configuration during migration", c2)
        else
          (.ok (), { c2 with barrier := storageDel c2.barrier recoverySealConfigPath })

/-- `RecoveryConfig`: serve from the cache; else `checkCore` and read the
primary plaintext path.  When that is empty: if the core is sealed return
"not initialized" without consulting the legacy path; otherwise read the
legacy path.  NOTE the faithful modelling of the Go shadowing slip: the
fallback read assigns a NEW `conf` variable (`conf, err := ...`), so when the
legacy entry exists and the inner block falls through, the OUTER `conf` is
still nil and the subsequent `conf.Type` access dereferences a nil pointer. -/
def RecoveryConfig (d : AutoSeal) : Res (Option SealConfig) × AutoSeal :=
  match d.recoveryConfig with
  | some cfg => (.ok (some cfg), d)
  | none =>
    match d.core with
    | none => (.err "seal does not have a core set", d)
    | some c =>
      match PhysicalRecoverySealConfig c with
      | .err e => (.err ("failed to read recovery seal configuration: " ++ e), d)
      | .nilPanic => (.nilPanic, d)
      | .ok (some conf) =>
        if IsSameAs RecoverySealConfigType conf.type then
          (.ok (some conf), { d with recoveryConfig := some conf })
        else
          (.err "recovery seal type does not match loaded type", d)
      | .ok none =>
        if c.Sealed then
          (.ok none, d)
        else
          match PhysicalRecoverySealConfigOldPath c with
          | .err e => (.err ("failed to read old recovery seal configuration: " ++ e), d)
          | .nilPanic => (.nilPanic, d)
          | .ok none => (.ok none, d)
          | .ok (some _) =>
            -- the inner `conf` was shadowed; the outer `conf` is still nil
            -- here, and `conf.Type` in the type-mismatch check panics
            (.nilPanic, d)

/-- `SetCachedRecoveryConfig`. -/
def SetCachedRecoveryConfig (d : AutoSeal) (config : Option SealConfig) :
    AutoSeal :=
  { d with recoveryConfig := config }

/-- `SetRecoveryConfig`: `checkCore`; always run the legacy migration first;
a `none` config clears the cache; otherwise stamp the caller's config with
the recovery type, persist, and cache.  The third component is the caller's
config object after the call. -/
def SetRecoveryConfig (d : AutoSeal) (conf : Option SealConfig) :
    Res Unit × AutoSeal × Option SealConfig :=
  match d.core with
  | none => (.err "seal does not have a core set", d, conf)
  | some c =>
    match migrateRecoveryConfig c with
    | (.err e, c2) => (.err e, { d with core := some c2 }, conf)
    | (.nilPanic, c2) => (.nilPanic, { d with core := some c2 }, conf)
    | (.ok _, c2) =>
      match conf with
      | none => (.ok (), { d with core := some c2, recoveryConfig := none }, none)
      | some cf =>
        let cf2 := { cf with type := RecoverySealConfigType }
        match SetPhysicalRecoverySealConfig c2 cf2 with
        | (.ok _, c3) =>
          (.ok (), { d with core := some c3, recoveryConfig := some cf2 },
            some cf2)
        | (.err e, c3) =>
          (.err ("failed to write recovery seal configuration: " ++ e),
            { d with core := some c3 }, some cf2)
        | (.nilPanic, c3) => (.nilPanic, { d with core := some c3 }, some cf2)

/-- The outcome of probing one backend during a health-check pass: the
backend encrypt/decrypt calls are external, so the probe's behaviour is an
input of the model. -/
inductive ProbeOutcome where
  | encryptError
  | decryptError
  | roundTripMismatch
  | success
deriving DecidableEq, Repr

/-- One backend's step of the health-check pass.  Returns the updated
`SealInfo` and the contribution to `anyUnhealthy`.  Faithful to the source:
`anyUnhealthy = true` is executed ONLY in the encrypt-error branch; the
decrypt-error and round-trip-mismatch branches call `fail` (which clears
`w.Healthy`) but leave `anyUnhealthy` untouched. -/
def probeStep (w : SealInfo) (o : ProbeOutcome) : SealInfo × Bool :=
  match o with
  | .encryptError => ({ w with healthy := false }, true)
  | .decryptError => ({ w with healthy := false }, false)
  | .roundTripMismatch => ({ w with healthy := false }, false)
  | .success => ({ w with healthy := true }, false)

/-- One full pass of the health-check loop body over all backends (paired
positionally with their probe outcomes): returns the updated backend infos
and the new `allSealsHealthy` value (`!anyUnhealthy`). -/
def checkPass (ws : List SealInfo) (os : List ProbeOutcome) :
    List SealInfo × Bool :=
  let stepped := (ws.zip os).map (fun p => probeStep p.1 p.2)
  (stepped.map Prod.fst, !(stepped.any Prod.snd))

/-- The effect of one health-check pass on the manager: update every
backend's info and store `allSealsHealthy := !anyUnhealthy` under the
manager's lock. -/
def applyCheckPass (d : AutoSeal) (os : List ProbeOutcome) : AutoSeal :=
  let r := checkPass d.access.sealInfos os
  { d with access := { d.access with sealInfos := r.1 },
           allSealsHealthy := r.2 }

/-- Physical storage of a manager's bound core (empty when unbound); a
convenience projection for stating storage-footprint properties. -/
def physOf (d : AutoSeal) : Storage :=
  match d.core with
  | none => []
  | some c => c.physical

/-- A fault-free, unsealed core with given physical and barrier contents. -/
def mkCore (phys barrier : Storage) : Core :=
  { physical := phys
    barrier := barrier
    isSealed := false
    putFailPaths := []
    getFailPaths := []
    barrierGetFails := false
    barrierDeleteFails := false }

/-- A sample single-backend access. -/
def access1 : Access :=
  { currentKeyId := 5
    generationSealTypes := ["awskms"]
    sealInfos := [{ name := "kms1", healthy := true }] }

/-- A sample two-backend access. -/
def access2 : Access :=
  { currentKeyId := 5
    generationSealTypes := ["awskms", "azurekeyvault"]
    sealInfos := [{ name := "kms1", healthy := true },
                  { name := "kms2", healthy := true }] }

/-- A sample recovery seal config (as it would be found in storage). -/
def sampleRecoveryCfg : SealConfig :=
  { type := "recovery", secretShares := 1, secretThreshold := 1 }

/-- A manager bound to a fault-free core with empty storage. -/
def boundSeal : AutoSeal := SetCore (NewAutoSeal access1) (mkCore [] [])

/-- A sample config passed by a caller (its `type` is about to be stamped). -/
def cfg0 : SealConfig :=
  { type := "placeholder", secretShares := 2, secretThreshold := 3 }

/-- A core whose persist of the barrier seal config fails. -/
def corePutFailBarrierCfg : Core :=
  { mkCore [] [] with putFailPaths := [barrierSealConfigPath] }

/-- A manager bound to `corePutFailBarrierCfg`. -/
def sealPutFail : AutoSeal := SetCore (NewAutoSeal access1) corePutFailBarrierCfg

/-- A manager whose recovery key and stored keys are wrapped under the
backend's current key version (5). -/
def sealUpToDate : AutoSeal :=
  SetCore (NewAutoSeal access1)
    (mkCore [(recoveryKeyPath, .wrapped { keyId := 5, payload := .single [7] }),
             (StoredBarrierKeysPath,
               .wrapped { keyId := 5, payload := .shares [[1], [2]] })] [])

/-- An unsealed manager whose primary recovery-config location is empty while
the legacy barrier-protected location holds a valid recovery config. -/
def sealLegacyUnsealed : AutoSeal :=
  SetCore (NewAutoSeal access1)
    (mkCore [] [(recoverySealConfigPath, .config sampleRecoveryCfg)])

/-- Same as `sealLegacyUnsealed` but with the core sealed. -/
def sealLegacySealed : AutoSeal :=
  SetCore (NewAutoSeal access1)
    { mkCore [] [(recoverySealConfigPath, .config sampleRecoveryCfg)] with
        isSealed := true }

/-- Reading back the path just written returns the written value. -/
theorem storageGet_storagePut_same (s : Storage) (p : String) (v : StoredValue) :
    storageGet (storagePut s p v) p = some v := by
  simp [storageGet, storagePut, List.find?]

/-- `SetRecoveryKey` either succeeds or leaves the manager unchanged. -/
theorem SetRecoveryKey_ok_or_id (d : AutoSeal) (k : Option Bytes) :
    (SetRecoveryKey d k).1 = Res.ok () ∨ (SetRecoveryKey d k).2 = d := by
  unfold SetRecoveryKey
  split
  · right; rfl
  · split
    · right; rfl
    · split
      · right; rfl
      · left; rfl

/-- `upgradeRecoveryKey` either succeeds or leaves the manager unchanged. -/
theorem upgradeRecoveryKey_ok_or_id (d : AutoSeal) :
    (upgradeRecoveryKey d).1 = Res.ok () ∨ (upgradeRecoveryKey d).2 = d := by
  unfold upgradeRecoveryKey
  split
  · right; rfl
  · split
    · right; rfl
    · split
      · right; rfl
      · split
        · right; rfl
        · right; rfl
        · split
          · left; rfl
          · split
            · right; rfl
            · right; rfl
            · exact SetRecoveryKey_ok_or_id d (some _)

/-- C10: from construction until the first health-check pass completes,
`Healthy()` returns false — `NewAutoSeal` leaves the aggregate health flag at
its zero value, so a freshly constructed manager reports unhealthy no matter
what backends it was given. -/
theorem C10_fresh_manager_unhealthy (a : Access) :
    Healthy (NewAutoSeal a) = false := rfl

/-- C1 (divergence witness): a single-backend pass whose probe fails at the
decrypt step leaves the backend's per-backend `Healthy` flag false, yet the
aggregate flag stored for `Healthy()` is true — the aggregate is NOT the
logical AND of per-backend flags, because `anyUnhealthy` is only set in the
encrypt-error branch of the pass. -/
theorem C1_aggregate_not_and_of_backend_flags :
    Healthy (applyCheckPass boundSeal [ProbeOutcome.decryptError]) = true ∧
    (applyCheckPass boundSeal [ProbeOutcome.decryptError]).access.sealInfos.all
        (fun w => w.healthy) = false ∧
    Healthy (applyCheckPass boundSeal [ProbeOutcome.roundTripMismatch]) = true ∧
    Healthy (applyCheckPass boundSeal [ProbeOutcome.encryptError]) = false ∧
    Healthy (applyCheckPass boundSeal [ProbeOutcome.success]) = true := by
  exact ⟨rfl, rfl, rfl, rfl, rfl⟩

/-- C6 (divergence witness): with an empty primary recovery-config location
and a valid config at the legacy path, a SEALED core correctly yields "not
initialized" without consulting the legacy path, but an UNSEALED core hits
the shadowed-variable slip: the fallback result is dropped, and the
type-mismatch check dereferences the still-nil outer `conf` (panic) instead
of returning the legacy entry's config. -/
theorem C6_fallback_shadowing_panic :
    (RecoveryConfig sealLegacySealed).1 = Res.ok none ∧
    (RecoveryConfig sealLegacyUnsealed).1 = Res.nilPanic := by
  exact ⟨rfl, rfl⟩

/-- C2 (counterexample): `SetStoredKeys` invoked before `SetCore` has bound a
server instance dereferences the nil core (a runtime panic), rather than
returning the `NotBoundError`-style error `checkCore` produces. -/
theorem C2_counterexample_set_stored_keys_panics :
    (SetStoredKeys (NewAutoSeal access1) [[1, 2]]).1 = Res.nilPanic ∧
    (SetStoredKeys (NewAutoSeal access1) [[1, 2]]).1 ≠
      Res.err "seal does not have a core set" := by
  exact ⟨rfl, by decide⟩

/-- C2 (amended): before `SetCore` binds a server instance, the operations
that call `checkCore` (`BarrierConfig` and `RecoveryConfig` on an empty
cache, `SetBarrierConfig`, `SetRecoveryConfig`, `SetRecoveryKey`) return the
not-bound error, while `SetStoredKeys`, `GetStoredKeys`, `RecoveryKey`,
`VerifyRecoveryKey` (with a non-nil candidate) and `UpgradeKeys` have no such
guard and dereference the nil core (crash). -/
theorem C2_amended_unbound_core_behaviour (d : AutoSeal) (hc : d.core = none) :
    (d.barrierConfig = none →
      (BarrierConfig d).1 = Res.err "seal does not have a core set") ∧
    (∀ conf, (SetBarrierConfig d conf).1 =
      Res.err "seal does not have a core set") ∧
    (d.recoveryConfig = none →
      (RecoveryConfig d).1 = Res.err "seal does not have a core set") ∧
    (∀ conf, (SetRecoveryConfig d conf).1 =
      Res.err "seal does not have a core set") ∧
    (∀ key, (SetRecoveryKey d key).1 =
      Res.err "seal does not have a core set") ∧
    (∀ keys, (SetStoredKeys d keys).1 = Res.nilPanic) ∧
    GetStoredKeys d = Res.nilPanic ∧
    RecoveryKey d = Res.nilPanic ∧
    (∀ k, VerifyRecoveryKey d (some k) = Res.nilPanic) ∧
    (UpgradeKeys d).1 = Res.nilPanic := by
  refine ⟨?_, ?_, ?_, ?_, ?_, ?_, ?_, ?_, ?_, ?_⟩
  · intro hb; simp [BarrierConfig, hb, hc]
  · intro conf; simp [SetBarrierConfig, hc]
  · intro hb; simp [RecoveryConfig, hb, hc]
  · intro conf; simp [SetRecoveryConfig, hc]
  · intro key; simp [SetRecoveryKey, hc]
  · intro keys; simp [SetStoredKeys, hc]
  · simp [GetStoredKeys, hc]
  · simp [RecoveryKey, getRecoveryKeyInternal, hc]
  · intro k; simp [VerifyRecoveryKey, getRecoveryKeyInternal, hc]
  · simp [UpgradeKeys, upgradeRecoveryKey, hc]

/-- C2 (witness for the amended theorem): the freshly constructed manager has
no core; a guarded operation errors while an unguarded one panics. -/
theorem C2_amended_witness :
    (BarrierConfig (NewAutoSeal access1)).1 =
      Res.err "seal does not have a core set" ∧
    (SetStoredKeys (NewAutoSeal access1) [[1]]).1 = Res.nilPanic := by
  have h := C2_amended_unbound_core_behaviour (NewAutoSeal access1) rfl
  exact ⟨h.1 rfl, h.2.2.2.2.2.1 [[1]]⟩

/-- C3 (counterexample): a zero-length but non-nil key is NOT rejected — the
Go `key == nil` test only catches nil slices, so the empty key is wrapped and
persisted at the recovery-key path with success. -/
theorem C3_counterexample_empty_key_accepted :
    (SetRecoveryKey boundSeal (some [])).1 = Res.ok () ∧
    storageGet (physOf (SetRecoveryKey boundSeal (some [])).2) recoveryKeyPath
      = some (.wrapped { keyId := 5, payload := .single [] }) := by
  exact ⟨rfl, rfl⟩

/-- C3 (amended): `SetRecoveryKey` rejects only a nil (absent) key with the
validation error, without touching storage; every non-nil key — including the
zero-length one — is wrapped under the current key version and persisted at
the fixed recovery-key path. -/
theorem C3_amended_set_recovery_key (d : AutoSeal) (c : Core)
    (hc : d.core = some c)
    (hput : recoveryKeyPath ∉ c.putFailPaths) :
    SetRecoveryKey d none = (Res.err "recovery key to store is nil", d) ∧
    (∀ k : Bytes, (SetRecoveryKey d (some k)).1 = Res.ok () ∧
      storageGet (physOf (SetRecoveryKey d (some k)).2) recoveryKeyPath
        = some (.wrapped (SealWrapRecoveryKey d.access k))) := by
  constructor
  · simp [SetRecoveryKey, hc]
  · intro k
    constructor
    · simp [SetRecoveryKey, hc, hput]
    · simp [SetRecoveryKey, hc, hput, physOf, corePut,
        storageGet_storagePut_same]

/-- C3 (witness for the amended theorem). -/
theorem C3_amended_witness :
    SetRecoveryKey boundSeal none =
      (Res.err "recovery key to store is nil", boundSeal) ∧
    (SetRecoveryKey boundSeal (some [9])).1 = Res.ok () := by
  have h := C3_amended_set_recovery_key boundSeal (mkCore [] []) rfl
    (by decide)
  exact ⟨h.1, (h.2 [9]).1⟩

/-- C4: `UpgradeKeys` upgrades the recovery key first; any error there is
returned as is, the stored-root-keys upgrade is never attempted, and the
manager state — in particular the persisted wrapped stored keys — is
unchanged. -/
theorem C4_recovery_failure_stops_upgrade (d : AutoSeal) (e : String)
    (h : (upgradeRecoveryKey d).1 = Res.err e) :
    UpgradeKeys d = (Res.err e, d) ∧
    physOf (UpgradeKeys d).2 = physOf d := by
  have h2 : (upgradeRecoveryKey d).2 = d := by
    rcases upgradeRecoveryKey_ok_or_id d with h1 | h1
    · rw [h1] at h; cases h
    · exact h1
  have hp : upgradeRecoveryKey d = (Res.err e, d) :=
    Prod.ext_iff.mpr ⟨h, h2⟩
  have hU : UpgradeKeys d = (Res.err e, d) := by
    unfold UpgradeKeys
    rw [hp]
  exact ⟨hU, by rw [hU]⟩

/-- C4 (witness): a bound core with empty storage makes the recovery-key
upgrade fail ("no recovery key found") and `UpgradeKeys` stops there. -/
theorem C4_witness :
    UpgradeKeys boundSeal = (Res.err "no recovery key found", boundSeal) ∧
    physOf (UpgradeKeys boundSeal).2 = physOf boundSeal :=
  C4_recovery_failure_stops_upgrade boundSeal "no recovery key found" rfl

/-- C5: when both the recovery key and the stored root key shares are wrapped
under the backend's current key version (`IsUpToDate` is true for both),
`UpgradeKeys` succeeds without writing anything — the state, and hence every
persisted wrapped byte, is unchanged — so a second call yields the same
stored bytes as the first. -/
theorem C5_upgrade_idempotent_when_up_to_date (d : AutoSeal) (c : Core)
    (w1 w2 : SealWrappedValue)
    (hc : d.core = some c)
    (hg1 : recoveryKeyPath ∉ c.getFailPaths)
    (hg2 : StoredBarrierKeysPath ∉ c.getFailPaths)
    (hr : storageGet c.physical recoveryKeyPath = some (.wrapped w1))
    (hs : storageGet c.physical StoredBarrierKeysPath = some (.wrapped w2))
    (hu1 : IsUpToDate d.access w1 = true)
    (hu2 : IsUpToDate d.access w2 = true) :
    UpgradeKeys d = (Res.ok (), d) ∧
    physOf (UpgradeKeys d).2 = physOf d ∧
    (UpgradeKeys (UpgradeKeys d).2).2 = (UpgradeKeys d).2 := by
  have hrk : upgradeRecoveryKey d = (Res.ok (), d) := by
    simp [upgradeRecoveryKey, hc, hg1, hr, UnmarshalSealWrappedValue, hu1]
  have hsk : upgradeStoredKeys d = (Res.ok (), d) := by
    simp [upgradeStoredKeys, hc, hg2, hs, UnmarshalSealWrappedValue, hu2]
  have hkeys : UpgradeKeys d = (Res.ok (), d) := by
    rw [UpgradeKeys, hrk]; exact hsk
  refine ⟨hkeys, by rw [hkeys], by rw [hkeys, hkeys]⟩

/-- C5 (witness): a manager whose two artifacts are wrapped under the current
key version (5). -/
theorem C5_witness :
    UpgradeKeys sealUpToDate = (Res.ok (), sealUpToDate) ∧
    (UpgradeKeys (UpgradeKeys sealUpToDate).2).2 =
      (UpgradeKeys sealUpToDate).2 := by
  have h := C5_upgrade_idempotent_when_up_to_date sealUpToDate
    (mkCore [(recoveryKeyPath, .wrapped { keyId := 5, payload := .single [7] }),
             (StoredBarrierKeysPath,
               .wrapped { keyId := 5, payload := .shares [[1], [2]] })] [])
    { keyId := 5, payload := .single [7] }
    { keyId := 5, payload := .shares [[1], [2]] }
    rfl (by decide) (by decide) rfl rfl rfl rfl
  exact ⟨h.1, h.2.2⟩

/-- C8: once `SetRecoveryKey` has successfully persisted a key `k`,
`VerifyRecoveryKey` accepts exactly the byte-equal candidates: any non-nil
candidate differing in length or in any byte gets the mismatch error, and a
nil candidate always gets the validation error. -/
theorem C8_verify_iff_byte_equal (d : AutoSeal) (c : Core) (k : Bytes)
    (hc : d.core = some c)
    (hput : recoveryKeyPath ∉ c.putFailPaths)
    (hget : recoveryKeyPath ∉ c.getFailPaths) :
    (SetRecoveryKey d (some k)).1 = Res.ok () ∧
    (∀ cand : Bytes,
      VerifyRecoveryKey (SetRecoveryKey d (some k)).2 (some cand) =
        if cand = k then Res.ok ()
        else Res.err "recovery key does not match submitted values") ∧
    VerifyRecoveryKey (SetRecoveryKey d (some k)).2 none =
      Res.err "recovery key to verify is nil" := by
  have hstate : (SetRecoveryKey d (some k)).2 =
      { d with core := some (corePut c recoveryKeyPath
          (.wrapped (SealWrapRecoveryKey d.access k))) } := by
    simp [SetRecoveryKey, hc, hput]
  have hread : getRecoveryKeyInternal (SetRecoveryKey d (some k)).2 =
      Res.ok k := by
    rw [hstate]
    simp [getRecoveryKeyInternal, corePut, hget, storageGet_storagePut_same,
      UnmarshalSealWrappedValue, UnsealWrapRecoveryKey, SealWrapRecoveryKey]
  refine ⟨by simp [SetRecoveryKey, hc, hput], ?_, rfl⟩
  intro cand
  rw [VerifyRecoveryKey, hread]
  by_cases hk : cand = k
  · simp [hk, constantTimeCompare]
  · simp [hk, constantTimeCompare]

/-- C8 (witness): after storing `[7, 8]`, the equal candidate verifies, a
differing candidate gets the mismatch error, and nil gets the validation
error. -/
theorem C8_witness :
    VerifyRecoveryKey (SetRecoveryKey boundSeal (some [7, 8])).2 (some [7, 8])
      = Res.ok () ∧
    VerifyRecoveryKey (SetRecoveryKey boundSeal (some [7, 8])).2 (some [7, 9])
      = Res.err "recovery key does not match submitted values" ∧
    VerifyRecoveryKey (SetRecoveryKey boundSeal (some [7, 8])).2 none
      = Res.err "recovery key to verify is nil" := by
  have h := C8_verify_iff_byte_equal boundSeal (mkCore [] []) [7, 8]
    rfl (by decide) (by decide)
  refine ⟨?_, ?_, h.2.2⟩
  · have := h.2.1 [7, 8]; simpa using this
  · have := h.2.1 [7, 9]; simpa using this

/-- `SetCore` does not change the computed seal config type. -/
theorem bsct_SetCore (d : AutoSeal) (c : Core) :
    (SetCore d c).barrierSealConfigType = d.barrierSealConfigType := rfl

/-- `SetCachedBarrierConfig` does not change the computed seal config type. -/
theorem bsct_SetCachedBarrierConfig (d : AutoSeal) (cfg : Option SealConfig) :
    (SetCachedBarrierConfig d cfg).barrierSealConfigType =
      d.barrierSealConfigType := rfl

/-- `SetCachedRecoveryConfig` does not change the computed seal config
type. -/
theorem bsct_SetCachedRecoveryConfig (d : AutoSeal) (cfg : Option SealConfig) :
    (SetCachedRecoveryConfig d cfg).barrierSealConfigType =
      d.barrierSealConfigType := rfl

/-- A health-check pass does not change the computed seal config type. -/
theorem bsct_applyCheckPass (d : AutoSeal) (os : List ProbeOutcome) :
    (applyCheckPass d os).barrierSealConfigType =
      d.barrierSealConfigType := rfl

/-- `BarrierConfig` does not change the computed seal config type. -/
theorem bsct_BarrierConfig (d : AutoSeal) :
    ((BarrierConfig d).2).barrierSealConfigType = d.barrierSealConfigType := by
  unfold BarrierConfig
  split
  · rfl
  · split
    · rfl
    · split
      · rfl
      · rfl
      · rfl
      · split <;> rfl

/-- `RecoveryConfig` does not change the computed seal config type. -/
theorem bsct_RecoveryConfig (d : AutoSeal) :
    ((RecoveryConfig d).2).barrierSealConfigType = d.barrierSealConfigType := by
  unfold RecoveryConfig
  split
  · rfl
  · split
    · rfl
    · split
      · rfl
      · rfl
      · split <;> rfl
      · split
        · rfl
        · split <;> rfl

/-- `SetBarrierConfig` does not change the computed seal config type. -/
theorem bsct_SetBarrierConfig (d : AutoSeal) (conf : Option SealConfig) :
    ((SetBarrierConfig d conf).2.1).barrierSealConfigType =
      d.barrierSealConfigType := by
  unfold SetBarrierConfig
  split
  · rfl
  · split
    · rfl
    · dsimp only
      split <;> rfl

/-- `SetRecoveryConfig` does not change the computed seal config type. -/
theorem bsct_SetRecoveryConfig (d : AutoSeal) (conf : Option SealConfig) :
    ((SetRecoveryConfig d conf).2.1).barrierSealConfigType =
      d.barrierSealConfigType := by
  unfold SetRecoveryConfig
  split
  · rfl
  · split
    · rfl
    · rfl
    · split
      · rfl
      · dsimp only
        split <;> rfl

/-- `SetStoredKeys` does not change the computed seal config type. -/
theorem bsct_SetStoredKeys (d : AutoSeal) (keys : List Bytes) :
    ((SetStoredKeys d keys).2).barrierSealConfigType =
      d.barrierSealConfigType := by
  unfold SetStoredKeys
  split <;> rfl

/-- `SetRecoveryKey` does not change the computed seal config type. -/
theorem bsct_SetRecoveryKey (d : AutoSeal) (k : Option Bytes) :
    ((SetRecoveryKey d k).2).barrierSealConfigType =
      d.barrierSealConfigType := by
  unfold SetRecoveryKey
  split
  · rfl
  · split
    · rfl
    · split <;> rfl

/-- `upgradeRecoveryKey` does not change the computed seal config type. -/
theorem bsct_upgradeRecoveryKey (d : AutoSeal) :
    ((upgradeRecoveryKey d).2).barrierSealConfigType =
      d.barrierSealConfigType := by
  unfold upgradeRecoveryKey
  split
  · rfl
  · split
    · rfl
    · split
      · rfl
      · split
        · rfl
        · rfl
        · split
          · rfl
          · split
            · rfl
            · rfl
            · exact bsct_SetRecoveryKey d (some _)

/-- `upgradeStoredKeys` does not change the computed seal config type. -/
theorem bsct_upgradeStoredKeys (d : AutoSeal) :
    ((upgradeStoredKeys d).2).barrierSealConfigType =
      d.barrierSealConfigType := by
  unfold upgradeStoredKeys
  split
  · rfl
  · split
    · rfl
    · split
      · rfl
      · split
        · rfl
        · rfl
        · split
          · rfl
          · split
            · rfl
            · exact bsct_SetStoredKeys d _

/-- `UpgradeKeys` does not change the computed seal config type. -/
theorem bsct_UpgradeKeys (d : AutoSeal) :
    ((UpgradeKeys d).2).barrierSealConfigType = d.barrierSealConfigType := by
  have h2 := bsct_upgradeRecoveryKey d
  unfold UpgradeKeys
  rcases hq : upgradeRecoveryKey d with ⟨r, d2⟩
  rw [hq] at h2
  cases r with
  | ok u => exact (bsct_upgradeStoredKeys d2).trans h2
  | err e => exact h2
  | nilPanic => exact h2

/-- C7: the manager's seal config type is "multiseal" exactly when more than
one backend is configured, equals the single backend's declared type when
exactly one is, and is computed once by `NewAutoSeal`: no subsequent
operation of the manager changes it. -/
theorem C7_barrier_seal_config_type (a : Access) :
    (1 < a.generationSealTypes.length →
      BarrierSealConfigType (NewAutoSeal a) = SealConfigTypeMultiseal) ∧
    (∀ t, a.generationSealTypes = [t] →
      BarrierSealConfigType (NewAutoSeal a) = t) ∧
    (∀ d : AutoSeal,
      (∀ c, BarrierSealConfigType (SetCore d c) = BarrierSealConfigType d) ∧
      (∀ conf, BarrierSealConfigType (SetBarrierConfig d conf).2.1 =
        BarrierSealConfigType d) ∧
      (∀ conf, BarrierSealConfigType (SetRecoveryConfig d conf).2.1 =
        BarrierSealConfigType d) ∧
      BarrierSealConfigType (BarrierConfig d).2 = BarrierSealConfigType d ∧
      BarrierSealConfigType (RecoveryConfig d).2 = BarrierSealConfigType d ∧
      (∀ keys, BarrierSealConfigType (SetStoredKeys d keys).2 =
        BarrierSealConfigType d) ∧
      (∀ k, BarrierSealConfigType (SetRecoveryKey d k).2 =
        BarrierSealConfigType d) ∧
      BarrierSealConfigType (UpgradeKeys d).2 = BarrierSealConfigType d ∧
      (∀ cfg, BarrierSealConfigType (SetCachedBarrierConfig d cfg) =
        BarrierSealConfigType d) ∧
      (∀ cfg, BarrierSealConfigType (SetCachedRecoveryConfig d cfg) =
        BarrierSealConfigType d) ∧
      (∀ os, BarrierSealConfigType (applyCheckPass d os) =
        BarrierSealConfigType d)) := by
  refine ⟨?_, ?_, ?_⟩
  · intro h
    simp [BarrierSealConfigType, NewAutoSeal, h]
  · intro t ht
    simp [BarrierSealConfigType, NewAutoSeal, ht]
  · intro d
    exact ⟨fun c => bsct_SetCore d c,
      fun conf => bsct_SetBarrierConfig d conf,
      fun conf => bsct_SetRecoveryConfig d conf,
      bsct_BarrierConfig d,
      bsct_RecoveryConfig d,
      fun keys => bsct_SetStoredKeys d keys,
      fun k => bsct_SetRecoveryKey d k,
      bsct_UpgradeKeys d,
      fun cfg => bsct_SetCachedBarrierConfig d cfg,
      fun cfg => bsct_SetCachedRecoveryConfig d cfg,
      fun os => bsct_applyCheckPass d os⟩

/-- C7 (witness): two configured backends give "multiseal"; one gives its
declared type; an operation afterward leaves the type unchanged. -/
theorem C7_witness :
    BarrierSealConfigType (NewAutoSeal access2) = SealConfigTypeMultiseal ∧
    BarrierSealConfigType (NewAutoSeal access1) = "awskms" ∧
    BarrierSealConfigType (SetCore (NewAutoSeal access1) (mkCore [] [])) =
      BarrierSealConfigType (NewAutoSeal access1) := by
  exact ⟨(C7_barrier_seal_config_type access2).1 (by decide),
    (C7_barrier_seal_config_type access1).2.1 "awskms" rfl,
    ((C7_barrier_seal_config_type access1).2.2 (NewAutoSeal access1)).1
      (mkCore [] [])⟩

/-- C9: `SetBarrierConfig` and `SetRecoveryConfig` with a non-nil config
stamp the caller's config object with the manager's computed type before
persisting, so the caller's object carries that type after the call — for
`SetBarrierConfig` even when the persist fails and an error is returned. -/
theorem C9_set_config_mutates_caller (d : AutoSeal) (c : Core)
    (cf : SealConfig) (hc : d.core = some c) :
    ((SetBarrierConfig d (some cf)).2.2 =
      some { cf with type := BarrierSealConfigType d }) ∧
    (barrierSealConfigPath ∈ c.putFailPaths →
      (SetBarrierConfig d (some cf)).1 =
        Res.err "failed to write seal configuration") ∧
    ((migrateRecoveryConfig c).1 = Res.ok () →
      (SetRecoveryConfig d (some cf)).2.2 =
        some { cf with type := RecoverySealConfigType }) := by
  refine ⟨?_, ?_, ?_⟩
  · by_cases hmem : barrierSealConfigPath ∈ c.putFailPaths <;>
      simp [SetBarrierConfig, SetPhysicalBarrierSealConfig, hc, hmem]
  · intro hmem
    simp [SetBarrierConfig, SetPhysicalBarrierSealConfig, hc, hmem]
  · intro hmig
    rcases hq : migrateRecoveryConfig c with ⟨r, c2⟩
    rw [hq] at hmig
    simp only at hmig
    subst hmig
    by_cases hmem : recoverySealConfigPlaintextPath ∈ c2.putFailPaths <;>
      simp [SetRecoveryConfig, SetPhysicalRecoverySealConfig, hc, hq, hmem]

/-- C9 (witness): a failing barrier-config persist still returns the stamped
caller object together with the error; a recovery-config set (migration a
no-op) stamps the caller object with "recovery". -/
theorem C9_witness :
    (SetBarrierConfig sealPutFail (some cfg0)).2.2 =
      some { cfg0 with type := "awskms" } ∧
    (SetBarrierConfig sealPutFail (some cfg0)).1 =
      Res.err "failed to write seal configuration" ∧
    (SetRecoveryConfig boundSeal (some cfg0)).2.2 =
      some { cfg0 with type := "recovery" } := by
  have h1 := C9_set_config_mutates_caller sealPutFail corePutFailBarrierCfg
    cfg0 rfl
  have h2 := C9_set_config_mutates_caller boundSeal (mkCore [] []) cfg0 rfl
  exact ⟨h1.1, h1.2.1 (by decide), h2.2.2 rfl⟩

end Vault
